import Mathlib

/-!
Verification of the anomaly injection subsystem of the LogForge log
generator, as specified in the repository's specification document.

The repository ships the subsystem's test suite (tests/test_anomalies.py,
tests/test_config.py) but the implementation modules themselves
(logforge/core/config.py, logforge/generators/anomalies.py) are not part
of the source tree we were given, so every definition below is modelled
from the specification text (sections 3, 4 and 7), kept consistent with
the behaviour the test suite pins down.  Timestamps and durations are
rational numbers of seconds; rates, probabilities and severities are
rationals; the injector's private random source is modelled by an
explicit deterministic generator owned by the injector state.
-/

set_option maxRecDepth 4096

namespace LogForge

/-- Modelled from the spec: `AnomalyType` is the closed enumeration of
anomaly kinds (security, performance, system, behavioral domains). -/
inductive AnomalyType where
  | failed_auth
  | privilege_escalation
  | brute_force
  | suspicious_access
  | high_latency
  | memory_spike
  | cpu_spike
  | slow_query
  | service_unavailable
  | database_error
  | network_error
  | unusual_volume
  | user_behavior
deriving DecidableEq, Repr

/-- Modelled from the spec: the closed enumeration of temporal patterns. -/
inductive TemporalPattern where
  | constant
  | burst
  | gradual_increase
  | periodic
  | spike
deriving DecidableEq, Repr

/-- All thirteen anomaly types. -/
def allAnomalyTypes : List AnomalyType :=
  [.failed_auth, .privilege_escalation, .brute_force, .suspicious_access,
   .high_latency, .memory_spike, .cpu_spike, .slow_query,
   .service_unavailable, .database_error, .network_error, .unusual_volume,
   .user_behavior]

/-- String form of an anomaly type, as it appears in log records. -/
def AnomalyType.toName : AnomalyType → String
  | .failed_auth => "failed_auth"
  | .privilege_escalation => "privilege_escalation"
  | .brute_force => "brute_force"
  | .suspicious_access => "suspicious_access"
  | .high_latency => "high_latency"
  | .memory_spike => "memory_spike"
  | .cpu_spike => "cpu_spike"
  | .slow_query => "slow_query"
  | .service_unavailable => "service_unavailable"
  | .database_error => "database_error"
  | .network_error => "network_error"
  | .unusual_volume => "unusual_volume"
  | .user_behavior => "user_behavior"

/-! ## DurationParser -/

/-- Numeric value of a digit character. -/
def digitVal (c : Char) : Nat := c.toNat - 48

/-- Value of a digit string read as a base-10 natural (empty list reads 0). -/
def natOfDigits (cs : List Char) : Nat :=
  cs.foldl (fun a c => a * 10 + digitVal c) 0

/-- Modelled from the spec: the "numeric prefix" of a duration string is a
valid number.  Realised as a nonnegative decimal literal: digits, with at
most one decimal point and at least one digit overall. -/
def parseDecimal (cs : List Char) : Option ℚ :=
  let ip := cs.takeWhile (fun c => c != '.')
  let rest := cs.dropWhile (fun c => c != '.')
  match rest with
  | [] =>
      if ip ≠ [] ∧ ip.all Char.isDigit then some ((natOfDigits ip : ℚ))
      else none
  | _ :: fp =>
      if (ip ≠ [] ∨ fp ≠ []) ∧ ip.all Char.isDigit ∧ fp.all Char.isDigit then
        some ((natOfDigits ip : ℚ) + (natOfDigits fp : ℚ) / (10 ^ fp.length))
      else none

/-- Seconds denoted by a unit character: s, m, h, d. -/
def unitSeconds (c : Char) : Option ℚ :=
  if c = 's' then some 1
  else if c = 'm' then some 60
  else if c = 'h' then some 3600
  else if c = 'd' then some 86400
  else none

/-- Modelled from the spec: `parse_duration(s) -> duration`.  Empty string
or absence maps to the zero duration; a numeric prefix followed by exactly
one unit character s/m/h/d maps to the corresponding span of seconds; every
other input fails with a format error. -/
def parse_duration : Option String → Except String ℚ
  | none => .ok 0
  | some s =>
      match s.toList.reverse with
      | [] => .ok 0
      | unit :: revNum =>
          match parseDecimal revNum.reverse, unitSeconds unit with
          | some v, some u => .ok (v * u)
          | _, _ => .error ("Invalid duration format: " ++ s)

/-! ## Configuration data model -/

/-- Modelled from the spec: per-type tuning.  `format_specific` parameters
are carried opaquely; no claim depends on their contents. -/
structure AnomalyTypeConfig where
  weight : ℚ := 1
  severity_range : ℚ × ℚ := (1/10, 1)
  format_specific : List (String × String) := []
  correlation_groups : List String := []
deriving DecidableEq, Repr

/-- Modelled from the spec: one temporal rule. -/
structure AnomalyPatternConfig where
  pattern_type : TemporalPattern
  anomaly_types : List AnomalyType
  base_rate : ℚ := 1/20
  peak_rate : Option ℚ := none
  start_time : Option String := none
  duration : Option String := none
  period : Option String := none
deriving DecidableEq, Repr

/-- Modelled from the spec: defaults pre-populated for all types, with
correlation groups shared inside each domain (test_correlation_handling
requires `high_latency` and `memory_spike` to be correlatable). -/
def defaultAnomalyTypeConfigs : List (AnomalyType × AnomalyTypeConfig) :=
  [(.failed_auth, { correlation_groups := ["security"] }),
   (.privilege_escalation, { correlation_groups := ["security"] }),
   (.brute_force, { correlation_groups := ["security"] }),
   (.suspicious_access, { correlation_groups := ["security"] }),
   (.high_latency, { correlation_groups := ["performance"] }),
   (.memory_spike, { correlation_groups := ["performance"] }),
   (.cpu_spike, { correlation_groups := ["performance"] }),
   (.slow_query, { correlation_groups := ["performance"] }),
   (.service_unavailable, { correlation_groups := ["system"] }),
   (.database_error, { correlation_groups := ["system"] }),
   (.network_error, { correlation_groups := ["system"] }),
   (.unusual_volume, { correlation_groups := ["system"] }),
   (.user_behavior, { correlation_groups := ["behavioral"] })]

/-- Modelled from the spec: default format-to-anomaly-type mappings for at
least `apache_common`, `json` and `syslog`; the tests require
`failed_auth`/`brute_force` under `apache_common` and
`high_latency`/`memory_spike` under `json`. -/
def defaultFormatMappings : List (String × List AnomalyType) :=
  [("apache_common",
    [.failed_auth, .brute_force, .suspicious_access, .unusual_volume]),
   ("apache_combined",
    [.failed_auth, .brute_force, .suspicious_access, .unusual_volume]),
   ("json",
    [.high_latency, .memory_spike, .cpu_spike, .slow_query,
     .database_error, .service_unavailable]),
   ("syslog",
    [.service_unavailable, .network_error, .database_error,
     .privilege_escalation])]

/-- Modelled from the spec: the top-level anomaly configuration. -/
structure AnomalyConfig where
  enabled : Bool := false
  seed : Option Nat := none
  base_rate : ℚ := 1/20
  patterns : List AnomalyPatternConfig := []
  anomaly_types : List (AnomalyType × AnomalyTypeConfig) :=
    defaultAnomalyTypeConfigs
  format_mappings : List (String × List AnomalyType) := defaultFormatMappings
  correlation_probability : ℚ := 3/10
  correlation_window : String := "5m"
deriving DecidableEq, Repr

/-- Sequential composition of fallible computations over a list (the shape
config validation and injector construction use). -/
def mapExcept (f : α → Except String β) : List α → Except String (List β)
  | [] => .ok []
  | a :: as =>
      match f a with
      | .error e => .error e
      | .ok b =>
          match mapExcept f as with
          | .error e => .error e
          | .ok bs => .ok (b :: bs)

/-- Modelled from the spec: construction-time validation of a pattern
config — rates lie in [0,1] and `peak_rate >= base_rate` when present. -/
def validatePatternConfig (c : AnomalyPatternConfig) :
    Except String AnomalyPatternConfig :=
  if c.base_rate < 0 ∨ 1 < c.base_rate then
    .error "base_rate must be in [0, 1]"
  else
    match c.peak_rate with
    | none => .ok c
    | some p =>
        if p < c.base_rate then
          .error "peak_rate must be greater than or equal to base_rate"
        else if 1 < p then
          .error "peak_rate must be in [0, 1]"
        else .ok c

/-- Modelled from the spec: construction-time validation of the top-level
config — `base_rate` and `correlation_probability` lie in [0,1] and every
contained pattern config validates. -/
def validateAnomalyConfig (c : AnomalyConfig) : Except String AnomalyConfig :=
  if c.base_rate < 0 ∨ 1 < c.base_rate then
    .error "base_rate must be in [0, 1]"
  else if c.correlation_probability < 0 ∨ 1 < c.correlation_probability then
    .error "correlation_probability must be in [0, 1]"
  else
    match mapExcept validatePatternConfig c.patterns with
    | .error e => .error e
    | .ok _ => .ok c

/-! ## TemporalPatternGenerator -/

/-- A triangle wave of period 1 taking values in [0,1].  The spec allows
the periodic pattern to use "an equivalent shape" to the sinusoid,
producing rates in [base_rate, peak_rate] with visible variation; the
model uses this piecewise-linear equivalent. -/
def triangleWave (x : ℚ) : ℚ :=
  let f := x - (⌊x⌋ : ℚ)
  if f ≤ 1/2 then 2 * f else 2 - 2 * f

/-- Modelled from the spec: a TemporalPatternGenerator is constructed from
one pattern config plus the run's global start time and total duration,
computing `effective_start = global_start + parse_duration(start_time)`;
`pattern_duration` is the parsed duration, defaulting to the full
remaining run when unset; `period` is the parsed period. -/
structure TemporalPatternGenerator where
  config : AnomalyPatternConfig
  start_time : ℚ
  total_duration : ℚ
  effective_start : ℚ
  pattern_duration : ℚ
  period : ℚ
deriving DecidableEq, Repr

/-- Modelled from the spec: generator construction; malformed duration
strings fail with a format error at construction time. -/
def mkTemporalPatternGenerator (cfg : AnomalyPatternConfig)
    (globalStart totalDuration : ℚ) :
    Except String TemporalPatternGenerator :=
  match parse_duration cfg.start_time with
  | .error e => .error e
  | .ok off =>
      match (match cfg.duration with
             | none => Except.ok (totalDuration - off)
             | some d => parse_duration (some d)) with
      | .error e => .error e
      | .ok dur =>
          match parse_duration cfg.period with
          | .error e => .error e
          | .ok per =>
              .ok { config := cfg
                    start_time := globalStart
                    total_duration := totalDuration
                    effective_start := globalStart + off
                    pattern_duration := dur
                    period := per }

/-- Modelled from the spec: the per-pattern-type instantaneous rate, with
`elapsed = timestamp - effective_start`.  constant: base_rate inside the
window; burst: peak_rate inside the window; gradual_increase: linear ramp
from base_rate to peak_rate across the window, 0 before it and held at
peak_rate after it (the documented convention); spike: a bell-shaped
pulse (quadratic bell, the spec fixes only its qualitative shape) centered
at half the window; periodic: oscillation between base_rate and peak_rate
with the configured period and no start gating. -/
def TemporalPatternGenerator.get_anomaly_rate
    (g : TemporalPatternGenerator) (t : ℚ) : ℚ :=
  let elapsed := t - g.effective_start
  let base := g.config.base_rate
  let peak := g.config.peak_rate.getD base
  match g.config.pattern_type with
  | .constant =>
      if 0 ≤ elapsed ∧ elapsed < g.pattern_duration then base else 0
  | .burst =>
      if 0 ≤ elapsed ∧ elapsed < g.pattern_duration then peak else 0
  | .gradual_increase =>
      if elapsed < 0 then 0
      else if elapsed < g.pattern_duration then
        base + (peak - base) * (elapsed / g.pattern_duration)
      else peak
  | .spike =>
      if 0 ≤ elapsed ∧ elapsed ≤ g.pattern_duration then
        let center := g.pattern_duration / 2
        let x := (elapsed - center) / center
        base + (peak - base) * (1 - x ^ 2)
      else 0
  | .periodic =>
      base + (peak - base) * triangleWave (elapsed / g.period)

/-! ## Log records -/

/-- A log record value: records are open string-keyed maps whose values
are strings, numbers or nested records. -/
inductive Value where
  | str : String → Value
  | num : ℚ → Value
  | obj : List (String × Value) → Value
deriving Repr

/-- Look up a key in a record (first binding wins, as in a dict). -/
def getField : List (String × Value) → String → Option Value
  | [], _ => none
  | (k', v) :: rest, k => if k' = k then some v else getField rest k

/-- Set a key in a record, replacing an existing binding in place or
appending a new one (dict assignment semantics). -/
def setField : List (String × Value) → String → Value → List (String × Value)
  | [], k, v => [(k, v)]
  | (k', v') :: rest, k, v =>
      if k' = k then (k, v) :: rest else (k', v') :: setField rest k v

/-- Rank of a log level name; unknown levels rank as WARNING so they are
never rewritten. -/
def levelRank (s : String) : Nat :=
  if s = "DEBUG" then 0
  else if s = "INFO" then 1
  else if s = "WARNING" then 2
  else if s = "ERROR" then 3
  else if s = "CRITICAL" then 4
  else 2

/-- Escalate a level name to at least WARNING. -/
def escalateLevel (s : String) : String :=
  if levelRank s < levelRank "WARNING" then "WARNING" else s

/-- Modelled from the spec: web-style output formats. -/
def isWebFormat (fmt : String) : Bool :=
  fmt = "apache_common" || fmt = "apache_combined" || fmt = "nginx"

/-- Modelled from the spec: structured/JSON-style output formats. -/
def isStructuredFormat (fmt : String) : Bool :=
  fmt = "json" || fmt = "logfmt" || fmt = "gelf" || fmt = "cef"

/-! ## AnomalyInjector -/

/-- Modelled from the spec: one decided anomaly occurrence.  Fresh
correlation identifiers are realised as naturals drawn from a counter
(the spec says only "a freshly generated id"). -/
structure AnomalyEvent where
  anomaly_type : AnomalyType
  timestamp : ℚ
  severity : ℚ
  metadata : List (String × Value)
  correlation_id : Option Nat := none
deriving Repr

/-- One step of the injector's private random source, modelled as a
linear congruential generator on 31-bit states (the spec does not fix the
generator, only that it is privately owned and seeded). -/
def lcgNext (s : Nat) : Nat := (1103515245 * s + 12345) % 2147483648

/-- The uniform value in [0,1) drawn at state `s`. -/
def lcgUniform (s : Nat) : ℚ := (lcgNext s : ℚ) / 2147483648

/-- Modelled from the spec: the source is seeded from the config's seed
when given; the unseeded, non-deterministic case is fixed to state 0 in
this deterministic model. -/
def seedState : Option Nat → Nat
  | none => 0
  | some s => s

/-- Modelled from the spec: the injector's runtime state — config, target
format, run window, derived relevant types, one pattern generator per
configured pattern, open correlation groups (id, members, last-update
timestamp), the fresh-id counter and the private random source state. -/
structure AnomalyInjector where
  config : AnomalyConfig
  log_format : String
  start_time : ℚ
  total_duration : ℚ
  relevant_anomaly_types : List AnomalyType
  pattern_generators : List TemporalPatternGenerator
  correlation_groups : List (Nat × List AnomalyEvent × ℚ)
  next_correlation_id : Nat
  rng : Nat

/-- Modelled from the spec: injector construction — relevant types come
from the format mapping (all types when the format has no entry), one
generator per pattern, empty correlation state, seeded random source. -/
def mkAnomalyInjector (c : AnomalyConfig) (fmt : String)
    (globalStart totalDuration : ℚ) : Except String AnomalyInjector :=
  match mapExcept
    (fun p => mkTemporalPatternGenerator p globalStart totalDuration)
    c.patterns with
  | .error e => .error e
  | .ok gens =>
      .ok { config := c
            log_format := fmt
            start_time := globalStart
            total_duration := totalDuration
            relevant_anomaly_types :=
              (((c.format_mappings.find? (fun m => m.1 == fmt)).map
                (fun m => m.2)).getD allAnomalyTypes)
            pattern_generators := gens
            correlation_groups := []
            next_correlation_id := 0
            rng := seedState c.seed }

/-- Modelled from the spec: the injection decision.  When disabled, false
without consuming randomness; otherwise the effective rate is the maximum
of the configured base rate and every pattern generator's rate at the
timestamp, one uniform value is drawn from the private source, and the
decision is value < effective_rate. -/
def AnomalyInjector.should_inject_anomaly (inj : AnomalyInjector) (t : ℚ) :
    Bool × AnomalyInjector :=
  if inj.config.enabled then
    let effective_rate := inj.pattern_generators.foldl
      (fun acc g => max acc (g.get_anomaly_rate t)) inj.config.base_rate
    (decide (lcgUniform inj.rng < effective_rate),
     { inj with rng := lcgNext inj.rng })
  else (false, inj)

/-- The decision sequence over a list of timestamps, threading the
injector state. -/
def runDecisions (inj : AnomalyInjector) : List ℚ → List Bool
  | [] => []
  | t :: ts =>
      let r := inj.should_inject_anomaly t
      r.1 :: runDecisions r.2 ts

/-- The parsed correlation window of a config (zero if malformed). -/
def corrWindow (c : AnomalyConfig) : ℚ :=
  ((parse_duration (some c.correlation_window)).toOption).getD 0

/-- The per-type tuning for one anomaly type (defaults when absent). -/
def lookupTypeConfig (c : AnomalyConfig) (ty : AnomalyType) :
    AnomalyTypeConfig :=
  ((c.anomaly_types.find? (fun p => p.1 == ty)).map (fun p => p.2)).getD {}

/-- Whether two anomaly types share a `correlation_groups` tag per the
config's AnomalyTypeConfig entries. -/
def sharesCorrelationTag (c : AnomalyConfig) (ty1 ty2 : AnomalyType) : Bool :=
  (lookupTypeConfig c ty1).correlation_groups.any
    (fun tag => (lookupTypeConfig c ty2).correlation_groups.contains tag)

/-- Modelled from the spec: the correlation protocol.  Prune groups whose
last-update timestamp is older than `timestamp - correlation_window`; if
an open group lies within the window and one of its members' types shares
a correlation tag with the candidate type, reuse its id with probability
`correlation_probability`; otherwise start a new group id (a fresh
counter value) with probability `correlation_probability`; else attach no
id.  One uniform value is consumed either way. -/
def AnomalyInjector.handle_correlation (inj : AnomalyInjector)
    (ty : AnomalyType) (t : ℚ) : Option Nat × AnomalyInjector :=
  let w := corrWindow inj.config
  let pruned := inj.correlation_groups.filter
    (fun g => decide (¬ (g.2.2 < t - w)))
  let compatible := pruned.find? (fun g =>
    decide (t - g.2.2 ≤ w) &&
    g.2.1.any (fun ev => sharesCorrelationTag inj.config ev.anomaly_type ty))
  let u := lcgUniform inj.rng
  let inj' := { inj with correlation_groups := pruned, rng := lcgNext inj.rng }
  match compatible with
  | some g =>
      if u < inj.config.correlation_probability then (some g.1, inj')
      else (none, inj')
  | none =>
      if u < inj.config.correlation_probability then
        (some inj.next_correlation_id,
         { inj' with next_correlation_id := inj.next_correlation_id + 1 })
      else (none, inj')

/-- Modelled from the spec: append an event to its correlation group and
update the group's last-update timestamp, creating the group if needed. -/
def AnomalyInjector.add_to_correlation (inj : AnomalyInjector)
    (cid : Nat) (ev : AnomalyEvent) : AnomalyInjector :=
  if inj.correlation_groups.any (fun g => g.1 == cid) then
    { inj with correlation_groups := (inj.correlation_groups.map
        (fun g => if g.1 = cid then (g.1, g.2.1 ++ [ev], ev.timestamp) else g)) }
  else
    { inj with correlation_groups :=
        (inj.correlation_groups ++ [(cid, [ev], ev.timestamp)]) }

/-- Modelled from the spec: format-aware application of an anomaly to a
log record.  Web-style formats force status_code 401 for
failed_auth/brute_force and overwrite the ip field with the synthesized
suspicious IP when present; structured formats promote high_latency's
response_time to top level and escalate the level field to at least
WARNING; in all cases an `anomaly` sub-object carrying the metadata plus
the type's string form and the severity is set on the record. -/
def AnomalyInjector.apply_anomaly_to_log (inj : AnomalyInjector)
    (log_data : List (String × Value)) (ev : AnomalyEvent) :
    List (String × Value) :=
  let d1 :=
    if isWebFormat inj.log_format = true ∧
       (ev.anomaly_type = .failed_auth ∨ ev.anomaly_type = .brute_force) then
      let d := setField log_data "status_code" (.num 401)
      match getField ev.metadata "source_ip" with
      | some ip => setField d "ip" ip
      | none => d
    else if isStructuredFormat inj.log_format = true ∧
            ev.anomaly_type = .high_latency then
      let d := match getField ev.metadata "response_time" with
        | some rt => setField log_data "response_time" rt
        | none => log_data
      match getField d "level" with
      | some (.str l) => setField d "level" (.str (escalateLevel l))
      | _ => d
    else log_data
  let anomalyObj :=
    setField (setField ev.metadata "type" (.str ev.anomaly_type.toName))
      "severity" (.num ev.severity)
  setField d1 "anomaly" (.obj anomalyObj)

/-! ## General lemmas -/

theorem lcgNext_lt (s : Nat) : lcgNext s < 2147483648 :=
  Nat.mod_lt _ (by norm_num)

theorem lcgUniform_nonneg (s : Nat) : 0 ≤ lcgUniform s := by
  unfold lcgUniform
  positivity

theorem lcgUniform_lt_one (s : Nat) : lcgUniform s < 1 := by
  unfold lcgUniform
  rw [div_lt_one (by norm_num)]
  exact_mod_cast lcgNext_lt s

theorem lt_foldl_max (f : α → ℚ) (l : List α) (b u : ℚ) :
    u < l.foldl (fun a x => max a (f x)) b ↔ u < b ∨ ∃ x ∈ l, u < f x := by
  induction l generalizing b with
  | nil => simp
  | cons y ys ih =>
      simp only [List.foldl_cons, ih, lt_max_iff, List.mem_cons]
      constructor
      · rintro ((h | h) | ⟨x, hx, hu⟩)
        · exact Or.inl h
        · exact Or.inr ⟨y, Or.inl rfl, h⟩
        · exact Or.inr ⟨x, Or.inr hx, hu⟩
      · rintro (h | ⟨x, (rfl | hx), hu⟩)
        · exact Or.inl (Or.inl h)
        · exact Or.inl (Or.inr hu)
        · exact Or.inr ⟨x, hx, hu⟩

theorem getField_setField_self (l : List (String × Value)) (k : String)
    (v : Value) : getField (setField l k v) k = some v := by
  induction l with
  | nil => simp [setField, getField]
  | cons p rest ih =>
      by_cases h : p.1 = k
      · simp [setField, getField, h]
      · simp [setField, getField, h, ih]

theorem getField_setField_ne (l : List (String × Value)) (k k' : String)
    (v : Value) (h : k' ≠ k) :
    getField (setField l k v) k' = getField l k' := by
  induction l with
  | nil => simp [setField, getField, Ne.symm h]
  | cons p rest ih =>
      by_cases hp : p.1 = k
      · subst hp
        simp [setField, getField, Ne.symm h]
      · simp only [setField, getField, if_neg hp]
        by_cases hp' : p.1 = k'
        · simp [getField, hp']
        · simp [getField, hp', ih]

theorem mapExcept_ok_forall (f : α → Except String β) (l : List α)
    (l' : List β) (h : mapExcept f l = .ok l') :
    ∀ a ∈ l, ∃ b, f a = .ok b := by
  induction l generalizing l' with
  | nil => simp
  | cons x xs ih =>
      intro a ha
      rcases hx : f x with e | b
      · rw [mapExcept, hx] at h
        cases h
      · rcases hxs : mapExcept f xs with e | bs
        · rw [mapExcept, hx, hxs] at h
          cases h
        · rcases List.mem_cons.1 ha with rfl | ha'
          · exact ⟨b, hx⟩
          · exact ih bs hxs a ha'

theorem validatePatternConfig_ok_inv (c c' : AnomalyPatternConfig)
    (h : validatePatternConfig c = .ok c') :
    c' = c ∧ 0 ≤ c.base_rate ∧ c.base_rate ≤ 1 ∧
      ∀ p, c.peak_rate = some p → c.base_rate ≤ p ∧ p ≤ 1 := by
  unfold validatePatternConfig at h
  split at h
  · cases h
  next hb =>
    push_neg at hb
    split at h
    next hp =>
      cases h
      refine ⟨rfl, hb.1, hb.2, ?_⟩
      intro p hps
      rw [hp] at hps
      cases hps
    next p hp =>
      split at h
      · cases h
      next h1 =>
        split at h
        · cases h
        next h2 =>
          cases h
          refine ⟨rfl, hb.1, hb.2, ?_⟩
          intro q hq
          rw [hp] at hq
          cases hq
          exact ⟨le_of_not_lt h1, le_of_not_lt h2⟩

theorem mkTemporalPatternGenerator_ok_inv (cfg : AnomalyPatternConfig)
    (gs td : ℚ) (g : TemporalPatternGenerator)
    (h : mkTemporalPatternGenerator cfg gs td = .ok g) :
    ∃ off dur per,
      parse_duration cfg.start_time = .ok off ∧
      ((cfg.duration = none ∧ dur = td - off) ∨
        ∃ d, cfg.duration = some d ∧ parse_duration (some d) = .ok dur) ∧
      parse_duration cfg.period = .ok per ∧
      g = { config := cfg, start_time := gs, total_duration := td,
            effective_start := gs + off, pattern_duration := dur,
            period := per } := by
  unfold mkTemporalPatternGenerator at h
  split at h
  · cases h
  next off hoff =>
    split at h
    · cases h
    next dur hdur =>
      split at h
      · cases h
      next per hper =>
        cases h
        refine ⟨off, dur, per, hoff, ?_, hper, rfl⟩
        rcases hd : cfg.duration with _ | d <;> rw [hd] at hdur
        · simp at hdur
          exact Or.inl ⟨rfl, hdur.symm⟩
        · simp at hdur
          exact Or.inr ⟨d, rfl, hdur⟩

/-! ## Claims -/

/-- C6: parse_duration maps the empty string (or an absent value) to the
zero duration; maps a numeric prefix followed by exactly one unit
character s/m/h/d to the corresponding span of seconds, minutes, hours or
days; and fails with a format error for every input whose unit is missing
or unrecognized or whose numeric prefix is not a valid number. -/
theorem parse_duration_contract :
    parse_duration none = .ok 0 ∧
    parse_duration (some "") = .ok 0 ∧
    (∀ cs q, parseDecimal cs = some q →
      parse_duration (some (String.mk (cs ++ ['s']))) = .ok (q * 1) ∧
      parse_duration (some (String.mk (cs ++ ['m']))) = .ok (q * 60) ∧
      parse_duration (some (String.mk (cs ++ ['h']))) = .ok (q * 3600) ∧
      parse_duration (some (String.mk (cs ++ ['d']))) = .ok (q * 86400)) ∧
    (∀ cs u, parseDecimal cs = none ∨ unitSeconds u = none →
      ∃ e, parse_duration (some (String.mk (cs ++ [u]))) = .error e) := by
  refine ⟨rfl, rfl, ?_, ?_⟩
  · intro cs q hq
    refine ⟨?_, ?_, ?_, ?_⟩ <;>
      simp [parse_duration, String.toList, List.reverse_append,
        List.reverse_reverse, hq, unitSeconds]
  · intro cs u h
    rcases h with h | h
    · exact ⟨"Invalid duration format: " ++ String.mk (cs ++ [u]), by
        simp [parse_duration, String.toList, List.reverse_append,
          List.reverse_reverse, h]⟩
    · rcases hpd : parseDecimal cs with _ | v <;>
        exact ⟨"Invalid duration format: " ++ String.mk (cs ++ [u]), by
          simp [parse_duration, String.toList, List.reverse_append,
            List.reverse_reverse, hpd, h]⟩

/-- Witness for C6 at concrete inputs: "30s" parses to 30 seconds and
"5x" is rejected. -/
theorem parse_duration_contract_witness :
    parse_duration (some "30s") = .ok 30 ∧
    ∃ e, parse_duration (some "5x") = .error e := by
  constructor
  · have h := (parse_duration_contract.2.2.1 ['3', '0'] 30 rfl).1
    rw [show (30 : ℚ) = 30 * 1 by norm_num]
    exact h
  · exact parse_duration_contract.2.2.2 ['5'] 'x' (Or.inr rfl)

/-- C7: constructing an AnomalyPatternConfig with peak_rate < base_rate
fails with a validation error, constructing an AnomalyConfig with
base_rate outside [0,1] fails with a validation error, and every config
accepted by validation satisfies the range and peak-vs-base invariants,
so generation never observes an invalid config. -/
theorem config_validation_contract :
    (∀ (c : AnomalyPatternConfig) (p : ℚ), c.peak_rate = some p →
      p < c.base_rate → ∃ e, validatePatternConfig c = .error e) ∧
    (∀ c : AnomalyConfig, c.base_rate < 0 ∨ 1 < c.base_rate →
      ∃ e, validateAnomalyConfig c = .error e) ∧
    (∀ c c' : AnomalyConfig, validateAnomalyConfig c = .ok c' →
      c' = c ∧ 0 ≤ c.base_rate ∧ c.base_rate ≤ 1 ∧
      ∀ pc ∈ c.patterns, ∀ p, pc.peak_rate = some p → pc.base_rate ≤ p) := by
  refine ⟨?_, ?_, ?_⟩
  · intro c p hp hlt
    refine ⟨?_, ?_⟩
    · exact if c.base_rate < 0 ∨ 1 < c.base_rate then
        "base_rate must be in [0, 1]"
      else "peak_rate must be greater than or equal to base_rate"
    · by_cases hb : c.base_rate < 0 ∨ 1 < c.base_rate
      · simp only [validatePatternConfig, if_pos hb]
      · simp only [validatePatternConfig, if_neg hb, hp, if_pos hlt]
  · intro c hb
    exact ⟨"base_rate must be in [0, 1]", by
      unfold validateAnomalyConfig
      rw [if_pos hb]⟩
  · intro c c' h
    unfold validateAnomalyConfig at h
    split at h
    · cases h
    next hb =>
      split at h
      · cases h
      next =>
        push_neg at hb
        split at h
        · cases h
        next l hl =>
          cases h
          refine ⟨rfl, hb.1, hb.2, ?_⟩
          intro pc hpc p hp
          obtain ⟨y, hy⟩ := mapExcept_ok_forall _ _ _ hl pc hpc
          exact ((validatePatternConfig_ok_inv pc y hy).2.2.2 p hp).1

/-- A pattern config with peak_rate 0 below base_rate 1, used to witness
validation failure. -/
def patBadEx : AnomalyPatternConfig :=
  { pattern_type := .burst, anomaly_types := [.high_latency],
    base_rate := 1, peak_rate := some 0 }

/-- A top-level config with base_rate 2 outside [0,1]. -/
def cfgBadEx : AnomalyConfig := { base_rate := 2 }

/-- A well-formed top-level config accepted by validation. -/
def cfgOkEx : AnomalyConfig :=
  { enabled := true, base_rate := 0, correlation_probability := 1 }

/-- Witness for C7 at concrete configs: both invalid constructions are
rejected and a valid one round-trips with its invariants. -/
theorem config_validation_contract_witness :
    (∃ e, validatePatternConfig patBadEx = .error e) ∧
    (∃ e, validateAnomalyConfig cfgBadEx = .error e) ∧
    (cfgOkEx = cfgOkEx ∧ 0 ≤ cfgOkEx.base_rate ∧ cfgOkEx.base_rate ≤ 1 ∧
      ∀ pc ∈ cfgOkEx.patterns, ∀ p, pc.peak_rate = some p →
        pc.base_rate ≤ p) :=
  ⟨config_validation_contract.1 patBadEx 0 rfl zero_lt_one,
   config_validation_contract.2.1 cfgBadEx (Or.inr one_lt_two),
   config_validation_contract.2.2 cfgOkEx cfgOkEx rfl⟩

/-- C2: for a TemporalPatternGenerator built from a burst pattern,
get_anomaly_rate equals peak_rate at every timestamp whose elapsed time
since effective_start lies in [0, pattern_duration), and equals 0 at every
timestamp outside that window. -/
theorem burst_rate (cfg : AnomalyPatternConfig) (gs td : ℚ)
    (g : TemporalPatternGenerator) (p : ℚ)
    (hmk : mkTemporalPatternGenerator cfg gs td = .ok g)
    (hpt : cfg.pattern_type = .burst) (hpk : cfg.peak_rate = some p)
    (t : ℚ) :
    (0 ≤ t - g.effective_start ∧
        t - g.effective_start < g.pattern_duration →
      g.get_anomaly_rate t = p) ∧
    (¬ (0 ≤ t - g.effective_start ∧
        t - g.effective_start < g.pattern_duration) →
      g.get_anomaly_rate t = 0) := by
  obtain ⟨off, dur, per, hoff, hdur, hper, hg⟩ :=
    mkTemporalPatternGenerator_ok_inv cfg gs td g hmk
  subst hg
  simp only [TemporalPatternGenerator.get_anomaly_rate, hpt, hpk,
    Option.getD_some]
  exact ⟨fun hin => if_pos hin, fun hout => if_neg hout⟩

/-- A trivial generator used as a fallback default. -/
def tpgFallback : TemporalPatternGenerator :=
  { config := { pattern_type := .constant, anomaly_types := [] }
    start_time := 0, total_duration := 0, effective_start := 0
    pattern_duration := 0, period := 0 }

/-- A burst pattern config: base 0, peak 1, ten-minute window. -/
def burstCfgEx : AnomalyPatternConfig :=
  { pattern_type := .burst, anomaly_types := [.brute_force],
    base_rate := 0, peak_rate := some 1, duration := some "10m" }

/-- The generator built from `burstCfgEx` over a one-hour run at start 0. -/
def burstGenEx : TemporalPatternGenerator :=
  (mkTemporalPatternGenerator burstCfgEx 0 3600).toOption.getD tpgFallback

/-- Witness for C2: five minutes into the burst the rate is the peak 1;
fifteen minutes in (past the ten-minute window) it is 0. -/
theorem burst_rate_witness :
    burstGenEx.get_anomaly_rate 300 = 1 ∧
    burstGenEx.get_anomaly_rate 900 = 0 := by
  have hes : burstGenEx.effective_start = 0 + 0 := rfl
  have hpd : burstGenEx.pattern_duration = (10 : ℚ) * 60 := rfl
  constructor
  · exact (burst_rate burstCfgEx 0 3600 burstGenEx 1 rfl rfl rfl 300).1
      (by rw [hes, hpd]; norm_num)
  · exact (burst_rate burstCfgEx 0 3600 burstGenEx 1 rfl rfl rfl 900).2
      (by rw [hes, hpd]; norm_num)

/-- C3: for a generator built from a gradual_increase pattern with
base_rate < peak_rate and a positive window, the rate is exactly
base_rate at elapsed 0, exactly peak_rate at elapsed = pattern_duration,
and strictly between the two at elapsed = pattern_duration / 2. -/
theorem gradual_increase_rate (cfg : AnomalyPatternConfig) (gs td : ℚ)
    (g : TemporalPatternGenerator) (p : ℚ)
    (hmk : mkTemporalPatternGenerator cfg gs td = .ok g)
    (hpt : cfg.pattern_type = .gradual_increase)
    (hpk : cfg.peak_rate = some p) (hlt : cfg.base_rate < p)
    (hdpos : 0 < g.pattern_duration) :
    g.get_anomaly_rate g.effective_start = cfg.base_rate ∧
    g.get_anomaly_rate (g.effective_start + g.pattern_duration) = p ∧
    cfg.base_rate <
      g.get_anomaly_rate (g.effective_start + g.pattern_duration / 2) ∧
    g.get_anomaly_rate (g.effective_start + g.pattern_duration / 2) < p := by
  obtain ⟨off, dur, per, hoff, hdur, hper, hg⟩ :=
    mkTemporalPatternGenerator_ok_inv cfg gs td g hmk
  subst hg
  simp only [TemporalPatternGenerator.get_anomaly_rate, hpt, hpk,
    Option.getD_some] at *
  refine ⟨?_, ?_, ?_⟩
  · rw [sub_self, if_neg (lt_irrefl 0), if_pos hdpos]
    simp
  · rw [show gs + off + dur - (gs + off) = dur from by ring,
      if_neg (not_lt.2 hdpos.le), if_neg (lt_irrefl dur)]
  · rw [show gs + off + dur / 2 - (gs + off) = dur / 2 from by ring,
      if_neg (not_lt.2 (by linarith)), if_pos (by linarith),
      show dur / 2 / dur = 1 / 2 from by
        rw [div_div, mul_comm, ← div_div]
        field_simp]
    constructor <;> nlinarith

/-- A gradual-increase pattern config: base 0, peak 1, twenty minutes. -/
def gradCfgEx : AnomalyPatternConfig :=
  { pattern_type := .gradual_increase, anomaly_types := [.high_latency],
    base_rate := 0, peak_rate := some 1, duration := some "20m" }

/-- The generator built from `gradCfgEx` over a one-hour run at start 0. -/
def gradGenEx : TemporalPatternGenerator :=
  (mkTemporalPatternGenerator gradCfgEx 0 3600).toOption.getD tpgFallback

/-- Witness for C3: the ramp starts at 0, ends at 1, and sits strictly
between them at the midpoint. -/
theorem gradual_increase_rate_witness :
    gradGenEx.get_anomaly_rate gradGenEx.effective_start = 0 ∧
    gradGenEx.get_anomaly_rate
      (gradGenEx.effective_start + gradGenEx.pattern_duration) = 1 ∧
    (0 : ℚ) < gradGenEx.get_anomaly_rate
      (gradGenEx.effective_start + gradGenEx.pattern_duration / 2) ∧
    gradGenEx.get_anomaly_rate
      (gradGenEx.effective_start + gradGenEx.pattern_duration / 2) < 1 := by
  have hpd : gradGenEx.pattern_duration = (20 : ℚ) * 60 := rfl
  exact gradual_increase_rate gradCfgEx 0 3600 gradGenEx 1 rfl rfl rfl
    zero_lt_one (by rw [hpd]; norm_num)

/-- C4: for every timestamp strictly before
effective_start = global_start + parse_duration(pattern.start_time), the
rate of a constant, burst, gradual_increase or spike pattern is 0
(periodic is exempt from this start gating). -/
theorem pre_start_rate_zero (cfg : AnomalyPatternConfig) (gs td off : ℚ)
    (g : TemporalPatternGenerator) (t : ℚ)
    (hmk : mkTemporalPatternGenerator cfg gs td = .ok g)
    (hoff : parse_duration cfg.start_time = .ok off)
    (hpt : cfg.pattern_type = .constant ∨ cfg.pattern_type = .burst ∨
      cfg.pattern_type = .gradual_increase ∨ cfg.pattern_type = .spike)
    (ht : t < gs + off) :
    g.get_anomaly_rate t = 0 := by
  obtain ⟨off', dur, per, hoff', hdur, hper, hg⟩ :=
    mkTemporalPatternGenerator_ok_inv cfg gs td g hmk
  rw [hoff] at hoff'
  cases hoff'
  subst hg
  have hneg : t - (gs + off) < 0 := by linarith
  rcases hpt with h | h | h | h <;>
    simp only [TemporalPatternGenerator.get_anomaly_rate, h]
  · rw [if_neg (fun hc => absurd hc.1 (not_le.2 hneg))]
  · rw [if_neg (fun hc => absurd hc.1 (not_le.2 hneg))]
  · rw [if_pos hneg]
  · rw [if_neg (fun hc => absurd hc.1 (not_le.2 hneg))]

/-- A constant pattern config that starts ten minutes into the run. -/
def lateCfgEx : AnomalyPatternConfig :=
  { pattern_type := .constant, anomaly_types := [.failed_auth],
    base_rate := 1, start_time := some "10m", duration := some "10m" }

/-- The generator built from `lateCfgEx` over a one-hour run at start 0. -/
def lateGenEx : TemporalPatternGenerator :=
  (mkTemporalPatternGenerator lateCfgEx 0 3600).toOption.getD tpgFallback

/-- Witness for C4: five minutes in, before the ten-minute offset, the
rate is 0. -/
theorem pre_start_rate_zero_witness : lateGenEx.get_anomaly_rate 300 = 0 :=
  pre_start_rate_zero lateCfgEx 0 3600 ((10 : ℚ) * 60) lateGenEx 300
    rfl rfl (Or.inl rfl) (by norm_num)

/-- C1: should_inject_anomaly returns false whenever the config is
disabled; otherwise it draws one uniform value from the injector's
private random source (advancing it exactly one step) and injects iff
that value is strictly below the effective rate, the maximum of the
configured base_rate and all pattern generators' rates at the timestamp —
equivalently, iff the value is below the base_rate or below some
generator's rate. -/
theorem should_inject_decision (inj : AnomalyInjector) (t : ℚ) :
    (inj.config.enabled = false → (inj.should_inject_anomaly t).1 = false) ∧
    (inj.config.enabled = true →
      (((inj.should_inject_anomaly t).1 = true ↔
          lcgUniform inj.rng < inj.config.base_rate ∨
          ∃ g ∈ inj.pattern_generators,
            lcgUniform inj.rng < g.get_anomaly_rate t) ∧
        ((inj.should_inject_anomaly t).2).rng = lcgNext inj.rng)) := by
  unfold AnomalyInjector.should_inject_anomaly
  cases he : inj.config.enabled with
  | false => simp [he]
  | true => simp [he, decide_eq_true_iff, lt_foldl_max]

/-- An injector with anomalies disabled. -/
def injDisabledEx : AnomalyInjector :=
  { config := {}, log_format := "json", start_time := 0
    total_duration := 3600, relevant_anomaly_types := allAnomalyTypes
    pattern_generators := [], correlation_groups := []
    next_correlation_id := 0, rng := 0 }

/-- An enabled injector with no patterns. -/
def injEnabledEx : AnomalyInjector :=
  { config := { enabled := true, base_rate := 0 }, log_format := "json"
    start_time := 0, total_duration := 3600
    relevant_anomaly_types := allAnomalyTypes, pattern_generators := []
    correlation_groups := [], next_correlation_id := 0, rng := 0 }

/-- Witness for C1: the disabled injector refuses, and the enabled
injector advances its random source by one step. -/
theorem should_inject_decision_witness :
    (injDisabledEx.should_inject_anomaly 0).1 = false ∧
    ((injEnabledEx.should_inject_anomaly 0).2).rng =
      lcgNext injEnabledEx.rng :=
  ⟨(should_inject_decision injDisabledEx 0).1 rfl,
   ((should_inject_decision injEnabledEx 0).2 rfl).2⟩

/-- C10: for a fixed seed, should_inject_anomaly is deterministic — two
injectors constructed from identical config, format and window produce
identical decision sequences over any identical sequence of timestamps,
because each owns a private random source seeded from the config. -/
theorem seeded_determinism (c : AnomalyConfig) (fmt : String) (gs td : ℚ)
    (s : Nat) (i1 i2 : AnomalyInjector) (ts : List ℚ)
    (_hs : c.seed = some s)
    (h1 : mkAnomalyInjector c fmt gs td = .ok i1)
    (h2 : mkAnomalyInjector c fmt gs td = .ok i2) :
    runDecisions i1 ts = runDecisions i2 ts := by
  rw [h1] at h2
  cases h2
  rfl

/-- A fallback injector value. -/
def injFallback : AnomalyInjector :=
  { config := {}, log_format := "", start_time := 0, total_duration := 0
    relevant_anomaly_types := [], pattern_generators := []
    correlation_groups := [], next_correlation_id := 0, rng := 0 }

/-- A seeded, enabled config with no patterns. -/
def cfgSeededEx : AnomalyConfig :=
  { enabled := true, seed := some 42, base_rate := 0 }

/-- The injector built from `cfgSeededEx` for the json format. -/
def injSeededEx : AnomalyInjector :=
  (mkAnomalyInjector cfgSeededEx "json" 0 3600).toOption.getD injFallback

/-- Witness for C10: two runs of the seed-42 injector over the same
three timestamps give the same decisions. -/
theorem seeded_determinism_witness :
    runDecisions injSeededEx [0, 60, 120] =
      runDecisions injSeededEx [0, 60, 120] :=
  seeded_determinism cfgSeededEx "json" 0 3600 42 injSeededEx injSeededEx
    [0, 60, 120] rfl rfl rfl

/-- C8: applying a FAILED_AUTH anomaly event to an Apache-style log
record forces the status_code field to 401 and attaches an anomaly
sub-object whose type is "failed_auth" and whose severity equals the
event's severity. -/
theorem apply_apache_failed_auth (inj : AnomalyInjector)
    (hfmt : inj.log_format = "apache_common")
    (log meta : List (String × Value)) (ts sev : ℚ) (cid : Option Nat) :
    getField
      (inj.apply_anomaly_to_log log ⟨.failed_auth, ts, sev, meta, cid⟩)
      "status_code" = some (.num 401) ∧
    ∃ a, getField
        (inj.apply_anomaly_to_log log ⟨.failed_auth, ts, sev, meta, cid⟩)
        "anomaly" = some (.obj a) ∧
      getField a "type" = some (.str "failed_auth") ∧
      getField a "severity" = some (.num sev) := by
  unfold AnomalyInjector.apply_anomaly_to_log
  rw [if_pos ⟨by rw [hfmt]; rfl, Or.inl rfl⟩]
  constructor
  · rw [getField_setField_ne _ _ _ _ (by decide)]
    rcases hip : getField meta "source_ip" with _ | ip
    · exact getField_setField_self _ _ _
    · rw [getField_setField_ne _ _ _ _ (by decide)]
      exact getField_setField_self _ _ _
  · refine ⟨_, getField_setField_self _ _ _, ?_, ?_⟩
    · rw [getField_setField_ne _ _ _ _ (by decide)]
      exact getField_setField_self _ _ _
    · exact getField_setField_self _ _ _

/-- An injector targeting the apache_common format. -/
def injApacheEx : AnomalyInjector :=
  { config := { enabled := true }, log_format := "apache_common"
    start_time := 0, total_duration := 3600
    relevant_anomaly_types := allAnomalyTypes, pattern_generators := []
    correlation_groups := [], next_correlation_id := 0, rng := 0 }

/-- The Apache-style record of the test suite. -/
def apacheLogEx : List (String × Value) :=
  [("ip", .str "192.168.1.1"), ("status_code", .num 200),
   ("method", .str "GET"), ("url", .str "/index.html")]

/-- Witness for C8 on the test suite's record and event. -/
theorem apply_apache_failed_auth_witness :
    getField
      (injApacheEx.apply_anomaly_to_log apacheLogEx
        ⟨.failed_auth, 0, 1/2, [("source_ip", .str "10.0.0.1")], none⟩)
      "status_code" = some (.num 401) ∧
    ∃ a, getField
        (injApacheEx.apply_anomaly_to_log apacheLogEx
          ⟨.failed_auth, 0, 1/2, [("source_ip", .str "10.0.0.1")], none⟩)
        "anomaly" = some (.obj a) ∧
      getField a "type" = some (.str "failed_auth") ∧
      getField a "severity" = some (.num (1/2)) :=
  apply_apache_failed_auth injApacheEx rfl apacheLogEx
    [("source_ip", .str "10.0.0.1")] 0 (1/2) none

/-- C9: applying a HIGH_LATENCY anomaly event whose metadata carries
response_time to a JSON-style record copies response_time to the top
level and escalates the record's level to at least WARNING, never
lowering it. -/
theorem apply_json_high_latency (inj : AnomalyInjector)
    (hfmt : inj.log_format = "json")
    (log meta : List (String × Value)) (ts sev : ℚ) (cid : Option Nat)
    (rt : Value) (l : String)
    (hrt : getField meta "response_time" = some rt)
    (hl : getField log "level" = some (.str l)) :
    getField
      (inj.apply_anomaly_to_log log ⟨.high_latency, ts, sev, meta, cid⟩)
      "response_time" = some rt ∧
    ∃ l', getField
        (inj.apply_anomaly_to_log log ⟨.high_latency, ts, sev, meta, cid⟩)
        "level" = some (.str l') ∧
      levelRank "WARNING" ≤ levelRank l' ∧ levelRank l ≤ levelRank l' := by
  unfold AnomalyInjector.apply_anomaly_to_log
  rw [if_neg (by rw [hfmt]; rintro ⟨h, -⟩; cases h),
    if_pos ⟨by rw [hfmt]; rfl, rfl⟩, hrt]
  have hl' : getField (setField log "response_time" rt) "level" =
      some (.str l) := by
    rw [getField_setField_ne _ _ _ _ (by decide)]
    exact hl
  dsimp only
  rw [hl']
  dsimp only
  constructor
  · rw [getField_setField_ne _ _ _ _ (by decide),
      getField_setField_ne _ _ _ _ (by decide)]
    exact getField_setField_self _ _ _
  · refine ⟨escalateLevel l, ?_, ?_, ?_⟩
    · rw [getField_setField_ne _ _ _ _ (by decide)]
      exact getField_setField_self _ _ _
    · unfold escalateLevel
      split
      · simp [levelRank]
      · omega
    · unfold escalateLevel
      split
      · omega
      · omega

/-- An injector targeting the json format. -/
def injJsonEx : AnomalyInjector :=
  { config := { enabled := true }, log_format := "json"
    start_time := 0, total_duration := 3600
    relevant_anomaly_types := allAnomalyTypes, pattern_generators := []
    correlation_groups := [], next_correlation_id := 0, rng := 0 }

/-- The JSON-style record of the test suite. -/
def jsonLogEx : List (String × Value) :=
  [("timestamp", .num 0), ("level", .str "INFO"),
   ("message", .str "Processing request")]

/-- Witness for C9 on the test suite's record and event. -/
theorem apply_json_high_latency_witness :
    getField
      (injJsonEx.apply_anomaly_to_log jsonLogEx
        ⟨.high_latency, 0, 4/5, [("response_time", .num 5000)], none⟩)
      "response_time" = some (.num 5000) ∧
    ∃ l', getField
        (injJsonEx.apply_anomaly_to_log jsonLogEx
          ⟨.high_latency, 0, 4/5, [("response_time", .num 5000)], none⟩)
        "level" = some (.str l') ∧
      levelRank "WARNING" ≤ levelRank l' ∧
      levelRank "INFO" ≤ levelRank l' :=
  apply_json_high_latency injJsonEx rfl jsonLogEx
    [("response_time", .num 5000)] 0 (4/5) none (.num 5000) "INFO" rfl rfl

theorem handle_correlation_fresh (inj : AnomalyInjector)
    (ty : AnomalyType) (t : ℚ)
    (hgroups : inj.correlation_groups = [])
    (hprob : inj.config.correlation_probability = 1) :
    inj.handle_correlation ty t =
      (some inj.next_correlation_id,
       { inj with
           correlation_groups := []
           rng := lcgNext inj.rng
           next_correlation_id := inj.next_correlation_id + 1 }) := by
  unfold AnomalyInjector.handle_correlation
  rw [hgroups, hprob]
  dsimp only [List.filter_nil, List.find?_nil]
  rw [if_pos (lcgUniform_lt_one _)]

theorem handle_correlation_reuse (inj : AnomalyInjector)
    (ty : AnomalyType) (t : ℚ) (cid : Nat) (evs : List AnomalyEvent)
    (lu : ℚ)
    (hgroups : inj.correlation_groups = [(cid, evs, lu)])
    (hprob : inj.config.correlation_probability = 1)
    (hwin : t - lu ≤ corrWindow inj.config)
    (hsh : evs.any
      (fun ev => sharesCorrelationTag inj.config ev.anomaly_type ty) =
      true) :
    (inj.handle_correlation ty t).1 = some cid := by
  have hkeep : ¬ (lu < t - corrWindow inj.config) := not_lt.2 (by linarith)
  have hcond : (decide (t - lu ≤ corrWindow inj.config) &&
      evs.any
        (fun ev => sharesCorrelationTag inj.config ev.anomaly_type ty)) =
      true := by
    rw [decide_eq_true hwin, hsh]
    rfl
  unfold AnomalyInjector.handle_correlation
  rw [hgroups, hprob]
  dsimp only
  rw [List.filter_cons_of_pos (by simpa using hkeep), List.filter_nil]
  simp only [List.find?, hcond]
  rw [if_pos (lcgUniform_lt_one _)]

theorem handle_correlation_pruned (inj : AnomalyInjector)
    (ty : AnomalyType) (t : ℚ) (cid : Nat) (evs : List AnomalyEvent)
    (lu : ℚ)
    (hgroups : inj.correlation_groups = [(cid, evs, lu)])
    (hprob : inj.config.correlation_probability = 1)
    (hdrop : lu < t - corrWindow inj.config) :
    (inj.handle_correlation ty t).1 = some inj.next_correlation_id := by
  unfold AnomalyInjector.handle_correlation
  rw [hgroups, hprob]
  dsimp only
  rw [List.filter_cons_of_neg (by simp; linarith), List.filter_nil]
  dsimp only [List.find?_nil]
  rw [if_pos (lcgUniform_lt_one _)]

theorem add_to_correlation_empty (inj : AnomalyInjector) (cid : Nat)
    (ev : AnomalyEvent) (hgroups : inj.correlation_groups = []) :
    inj.add_to_correlation cid ev =
      { inj with correlation_groups := [(cid, [ev], ev.timestamp)] } := by
  unfold AnomalyInjector.add_to_correlation
  rw [hgroups]
  dsimp only [List.any_nil]
  rw [if_neg (by simp)]
  simp

/-- C5: with correlation_probability 1, an anomaly opens a correlation
group; a second anomaly of a tag-sharing type generated within
correlation_window of the first reuses the same correlation id, while a
second anomaly generated beyond the window receives a new id. -/
theorem correlation_window_reuse (inj : AnomalyInjector)
    (ty1 ty2 : AnomalyType) (t1 t2 : ℚ) (ev1 : AnomalyEvent)
    (hgroups : inj.correlation_groups = [])
    (hprob : inj.config.correlation_probability = 1)
    (hshare : sharesCorrelationTag inj.config ty1 ty2 = true)
    (hty : ev1.anomaly_type = ty1) (hts : ev1.timestamp = t1) :
    (inj.handle_correlation ty1 t1).1 = some inj.next_correlation_id ∧
    (t2 - t1 ≤ corrWindow inj.config →
      (((inj.handle_correlation ty1 t1).2.add_to_correlation
          inj.next_correlation_id ev1).handle_correlation ty2 t2).1 =
        some inj.next_correlation_id) ∧
    (corrWindow inj.config < t2 - t1 →
      (((inj.handle_correlation ty1 t1).2.add_to_correlation
          inj.next_correlation_id ev1).handle_correlation ty2 t2).1 =
        some (inj.next_correlation_id + 1) ∧
      (((inj.handle_correlation ty1 t1).2.add_to_correlation
          inj.next_correlation_id ev1).handle_correlation ty2 t2).1 ≠
        some inj.next_correlation_id) := by
  have h1 := handle_correlation_fresh inj ty1 t1 hgroups hprob
  have hsh : [ev1].any
      (fun ev => sharesCorrelationTag inj.config ev.anomaly_type ty2) =
      true := by
    simp [hty, hshare]
  have hstate : (inj.handle_correlation ty1 t1).2.add_to_correlation
      inj.next_correlation_id ev1 =
      { inj with
          correlation_groups := [(inj.next_correlation_id, [ev1], t1)]
          rng := lcgNext inj.rng
          next_correlation_id := inj.next_correlation_id + 1 } := by
    rw [h1, add_to_correlation_empty _ _ _ rfl, hts]
  refine ⟨by rw [h1], ?_, ?_⟩
  · intro hle
    rw [hstate]
    exact handle_correlation_reuse _ ty2 t2 inj.next_correlation_id [ev1]
      t1 rfl hprob hle hsh
  · intro hgt
    rw [hstate]
    have hd := handle_correlation_pruned
      { inj with
          correlation_groups := [(inj.next_correlation_id, [ev1], t1)]
          rng := lcgNext inj.rng
          next_correlation_id := inj.next_correlation_id + 1 }
      ty2 t2 inj.next_correlation_id [ev1] t1 rfl hprob
      (show t1 < t2 - corrWindow inj.config by linarith)
    refine ⟨hd, ?_⟩
    rw [hd]
    simp

/-- A json-format injector forcing correlation. -/
def injCorrEx : AnomalyInjector :=
  { config := { enabled := true, correlation_probability := 1 }
    log_format := "json", start_time := 0, total_duration := 3600
    relevant_anomaly_types := allAnomalyTypes, pattern_generators := []
    correlation_groups := [], next_correlation_id := 0, rng := 0 }

/-- A high-latency anomaly event at time 0. -/
def evCorrEx : AnomalyEvent :=
  { anomaly_type := .high_latency, timestamp := 0, severity := 1
    metadata := [], correlation_id := some 0 }

/-- Witness for C5: with the default type configs, high_latency and
memory_spike correlate — one minute later the group id 0 is reused;
1000 seconds later (beyond the 5-minute window) a fresh id 1 is
assigned. -/
theorem correlation_window_reuse_witness :
    (injCorrEx.handle_correlation .high_latency 0).1 = some 0 ∧
    (((injCorrEx.handle_correlation .high_latency 0).2.add_to_correlation
        0 evCorrEx).handle_correlation .memory_spike 60).1 = some 0 ∧
    (((injCorrEx.handle_correlation .high_latency 0).2.add_to_correlation
        0 evCorrEx).handle_correlation .memory_spike 1000).1 = some 1 := by
  have hwin : corrWindow injCorrEx.config = (5 : ℚ) * 60 := rfl
  refine ⟨(correlation_window_reuse injCorrEx .high_latency .memory_spike
      0 60 evCorrEx rfl rfl rfl rfl rfl).1, ?_, ?_⟩
  · exact (correlation_window_reuse injCorrEx .high_latency .memory_spike
      0 60 evCorrEx rfl rfl rfl rfl rfl).2.1 (by rw [hwin]; norm_num)
  · exact ((correlation_window_reuse injCorrEx .high_latency .memory_spike
      0 1000 evCorrEx rfl rfl rfl rfl rfl).2.2 (by rw [hwin]; norm_num)).1

end LogForge
